import Mathlib

/-!
Shallow embedding of the honey-token detection engine
(`src/analysis/cloudwatch_analyzer.py`, `src/analysis/pattern_detector.py`,
`src/lambda_function.py`, `src/main.py`) together with theorems settling the
specification claims about it.

Modelling conventions:
* timestamps are integer epoch seconds (the ISO-string parsing done by the
  Python normalizer is outside the detection logic);
* Python `defaultdict` grouping is modelled by the list of group keys in
  first-insertion order (`keysOf`) plus a filter per key, which is exactly
  the key set / iteration order of a Python dict;
* detector detail maps are association lists of `DVal` scalars;
* `datetime.now(pytz.UTC)` at event-construction time is an explicit `now`
  parameter of the detectors that call it;
* the one fallible detector (`detect_time_based_pattern`, whose division is
  not guarded) returns `Except String _`, the error case being Python's
  `ZeroDivisionError`.
-/

namespace HoneyToken

/-- A scalar value stored in a `SecurityEvent.details` map. -/
inductive DVal where
  | s (v : String)
  | n (v : Int)
  | q (v : ℚ)
  | strs (v : List String)
deriving DecidableEq, Repr

/-- One parsed CloudWatch access-log record, as produced by
`CloudWatchAnalyzer._parse_log_results`. `http_status` is kept as a string,
as in the Python dict. -/
structure CWLog where
  timestamp : Int
  bucket_name : String
  object_name : String
  remote_ip : String
  user_agent : String
  operation : String
  http_status : String
deriving DecidableEq, Repr

/-- The `SecurityEvent` dataclass of `cloudwatch_analyzer.py` /
`lambda_function.py` (field `ip_address`). -/
structure CWEvent where
  event_type : String
  severity : String
  timestamp : Int
  ip_address : String
  resource : String
  details : List (String × DVal)
  region : String
deriving DecidableEq, Repr

/-- One log dict consumed by `PatternDetector` (keys `timestamp`, `ip`,
`object`, `user_agent`, `method`, `status`).  The optional `bytesEstimate`
field of the spec's normalized `AccessLogEntry` is carried along; the source
detectors never read it. -/
structure PDLog where
  timestamp : Int
  ip : String
  object : String
  user_agent : String
  method : String
  status : Nat
  bytesEstimate : Option Int
deriving DecidableEq, Repr

/-- The `SecurityEvent` dataclass of `log_analyzer.py`, used by
`pattern_detector.py` (field `source_ip`, default region "unknown"). -/
structure PDEvent where
  timestamp : Int
  event_type : String
  severity : String
  source_ip : String
  user_agent : String
  resource : String
  details : List (String × DVal)
  region : String
deriving DecidableEq, Repr

/-! ### Grouping machinery (Python `defaultdict` key order) -/

/-- The distinct keys of a list in order of first appearance: the key
iteration order of a Python dict populated by successive appends. -/
def keysOf : List String → List String
  | [] => []
  | x :: xs => x :: (keysOf xs).filter (fun y => y ≠ x)

/-! ### Small helpers -/

/-- `list.sort()` on integer timestamps. -/
def sortInts (l : List Int) : List Int := List.insertionSort (· ≤ ·) l

/-- `pat in hay` on character lists (Python substring containment). -/
def subAux (pat : List Char) : List Char → Bool
  | [] => pat.isEmpty
  | c :: cs => pat.isPrefixOf (c :: cs) || subAux pat cs

/-- `datetime.hour` of an epoch-second instant (UTC). -/
def hourOfTimestamp (t : Int) : Int := (t / 3600) % 24

/-! ### CloudWatchAnalyzer detectors (`src/analysis/cloudwatch_analyzer.py`) -/

/-- The keyword set of `CloudWatchAnalyzer.detect_geolocation_anomaly`
(note: no "script", unlike the lambda variant). -/
def suspicious_patterns : List String :=
  ["curl", "wget", "python", "bot", "crawler", "scanner"]

/-- `user_agent.lower()` as a character list (ASCII case folding). -/
def lowerChars (s : String) : List Char := s.toList.map Char.toLower

/-- `any(pattern in user_agent.lower() for pattern in suspicious_patterns)`. -/
def suspiciousUA (ua : String) : Bool :=
  suspicious_patterns.any (fun p => subAux p.toList (lowerChars ua))

/-- The `ip_downloads` population filter of
`CloudWatchAnalyzer.detect_bulk_downloads`: only the operation is consulted,
never the HTTP status. -/
def cwGets (logs : List CWLog) : List CWLog :=
  logs.filter (fun l => l.operation == "REST.GET.OBJECT")

/-- One IP group of `detect_bulk_downloads`: an event iff the IP has at
least `thr` `REST.GET.OBJECT` entries. -/
def bulkGroup (thr : Nat) (now : Int) (rgn : String) (gets : List CWLog)
    (ip : String) : Option CWEvent :=
  let downloads := gets.filter (fun l => l.remote_ip == ip)
  if thr ≤ downloads.length then
    some { event_type := "bulk_download", severity := "high", timestamp := now,
           ip_address := ip,
           resource := ((downloads.head?).map (fun l => l.bucket_name)).getD "",
           details :=
             [("download_count", DVal.n downloads.length),
              ("files", DVal.strs ((downloads.take 10).map (fun l => l.object_name))),
              ("user_agent",
               DVal.s (((downloads.head?).map (fun l => l.user_agent)).getD "Unknown"))],
           region := rgn }
  else none

/-- `CloudWatchAnalyzer.detect_bulk_downloads`: group `REST.GET.OBJECT`
entries by IP and emit one high-severity event per qualifying IP.  `thr` is
`bulk_download_threshold` (default 10); `now` is `datetime.now(pytz.UTC)`. -/
def detect_bulk_downloads (thr : Nat) (now : Int) (rgn : String)
    (logs : List CWLog) : List CWEvent :=
  (keysOf ((cwGets logs).map (fun l => l.remote_ip))).filterMap
    (bulkGroup thr now rgn (cwGets logs))

/-- The sorted timestamp list of one IP's entries
(`ip_access_times[ip].sort()` in `detect_rapid_access`). -/
def sortedTimes (logs : List CWLog) (ip : String) : List Int :=
  sortInts ((logs.filter (fun l => l.remote_ip == ip)).map (fun l => l.timestamp))

/-- The window scan of `detect_rapid_access`: for `i = 0, 1, ...` compare
`times[i + k - 1] - times[i]` against `W` and stop at the first hit
(the loop `break`s after the first qualifying window). -/
def firstWindow (k : Nat) (W : Int) : List Int → Option (Int × Int)
  | [] => none
  | t :: ts =>
    match (t :: ts).get? (k - 1) with
    | none => none
    | some tEnd => if tEnd - t ≤ W then some (t, tEnd) else firstWindow k W ts

/-- One IP group of `detect_rapid_access`: an event for the first qualifying
window, if any. -/
def rapidGroup (k : Nat) (W now : Int) (rgn : String) (logs : List CWLog)
    (ip : String) : Option CWEvent :=
  (firstWindow k W (sortedTimes logs ip)).map (fun w =>
    { event_type := "rapid_access", severity := "medium", timestamp := now,
      ip_address := ip, resource := "multiple",
      details := [("access_count", DVal.n k),
                  ("time_window", DVal.s (toString W ++ " seconds")),
                  ("first_access", DVal.n w.1),
                  ("last_access", DVal.n w.2)],
      region := rgn })

/-- `CloudWatchAnalyzer.detect_rapid_access`: per IP, sort the timestamps and
emit one medium event for the first window of `k` accesses spanning at most
`W` seconds.  Defaults: `k = 5`, `W = 60`. -/
def detect_rapid_access (k : Nat) (W : Int) (now : Int) (rgn : String)
    (logs : List CWLog) : List CWEvent :=
  (keysOf (logs.map (fun l => l.remote_ip))).filterMap
    (rapidGroup k W now rgn logs)

/-- `CloudWatchAnalyzer.detect_abnormal_hours_access`: one medium event per
entry whose UTC hour lies in `range(0, 6)`. -/
def detect_abnormal_hours_access (rgn : String) (logs : List CWLog) :
    List CWEvent :=
  logs.filterMap (fun l =>
    if 0 ≤ hourOfTimestamp l.timestamp ∧ hourOfTimestamp l.timestamp < 6 then
      some { event_type := "abnormal_hours_access", severity := "medium",
             timestamp := l.timestamp, ip_address := l.remote_ip,
             resource := l.object_name,
             details := [("access_time", DVal.n l.timestamp),
                         ("operation", DVal.s l.operation)],
             region := rgn }
    else none)

/-- `CloudWatchAnalyzer.detect_geolocation_anomaly`: despite its name, a
suspicious-user-agent detector emitting one medium event per matching log
entry (not per IP). -/
def detect_geolocation_anomaly (now : Int) (rgn : String) (logs : List CWLog) :
    List CWEvent :=
  logs.filterMap (fun l =>
    if suspiciousUA l.user_agent then
      some { event_type := "suspicious_user_agent", severity := "medium",
             timestamp := now, ip_address := l.remote_ip,
             resource := l.object_name,
             details := [("user_agent", DVal.s l.user_agent),
                         ("reason", DVal.s "Automated tool detected")],
             region := rgn }
    else none)

/-! ### Store adapter (`CloudWatchAnalyzer.store_event_in_dynamodb`)

The DynamoDB table is modelled as an association list keyed by `event_id`;
`put_item` is DynamoDB's unconditional overwrite-by-key.  (The lambda-variant
`store_event_in_dynamodb` differs only in taking the wall clock at store time
instead of `event.timestamp` for the id.) -/

/-- `f"{event.event_type}_{event.timestamp.timestamp()}_{event.ip_address}"`. -/
def event_id (e : CWEvent) : String :=
  e.event_type ++ "_" ++ toString e.timestamp ++ "_" ++ e.ip_address

/-- DynamoDB `put_item`: overwrite the item with this key, or append it. -/
def put_item (store : List (String × CWEvent)) (key : String) (v : CWEvent) :
    List (String × CWEvent) :=
  if store.any (fun p => p.1 == key) then
    store.map (fun p => if p.1 == key then (key, v) else p)
  else store ++ [(key, v)]

/-- `CloudWatchAnalyzer.store_event_in_dynamodb` (its effect on the table). -/
def store_event_in_dynamodb (store : List (String × CWEvent)) (e : CWEvent) :
    List (String × CWEvent) :=
  put_item store (event_id e) e

/-- The detection part of `CloudWatchAnalyzer.analyze_logs`: the events of
all four detectors at their default thresholds (the dict values, flattened
in dict order); an empty batch short-circuits to no events. -/
def analyze_logs_events (now : Int) (rgn : String) (logs : List CWLog) :
    List CWEvent :=
  if logs.isEmpty then []
  else
    detect_bulk_downloads 10 now rgn logs ++ detect_rapid_access 5 60 now rgn logs
      ++ detect_abnormal_hours_access rgn logs
      ++ detect_geolocation_anomaly now rgn logs

/-! ### Spec-modelled notions used to compare code with spec wording -/

/-- Modelled from the spec: the "window bucket" is "the analysis window's
start time truncated to the window granularity" (glossary, §3); the code
under `src/` never computes it, so it is modelled here from the spec's words
for the refutation of the identity claim. -/
def spec_windowBucket (granularity t : Int) : Int := (t / granularity) * granularity

/-- Modelled from the spec: a "successful GET" entry of the CloudWatch log
shape — a `REST.GET.OBJECT` operation with HTTP status 200 (spec §4.1 table);
the source's bulk-download detector does not consult the status. -/
def spec_successfulGet (l : CWLog) : Bool :=
  l.operation == "REST.GET.OBJECT" && l.http_status == "200"

/-- Modelled from the spec: the DataExfiltration condition "sum of
`bytesEstimate` over successful GETs ≥ 100 MB" for one source IP
(spec §4.1 table).  The source's detector never reads `bytesEstimate`. -/
def spec_dataExfilFires (logs : List PDLog) (ip : String) : Prop :=
  100 * 1024 * 1024 ≤
    (((logs.filter (fun l => l.method == "GET" && l.status == 200)).filter
        (fun l => l.ip == ip)).map (fun l => l.bytesEstimate.getD 0)).sum

/-! ### PatternDetector (`src/analysis/pattern_detector.py`) -/

/-- Stable sort by timestamp (`list.sort(key=lambda x: x['timestamp'])`). -/
def sortPDByTime (l : List PDLog) : List PDLog :=
  List.insertionSort (fun a b => a.timestamp ≤ b.timestamp) l

/-- Python `min` over a nonempty timestamp list (0 as junk value on `[]`). -/
def minTs : List Int → Int
  | [] => 0
  | x :: xs => xs.foldl min x

/-- Python `max` over a nonempty timestamp list (0 as junk value on `[]`). -/
def maxTs : List Int → Int
  | [] => 0
  | x :: xs => xs.foldl max x

/-- Python `round(x, 2)` (exact on the integral values the claims touch;
Python's float half-to-even can differ from this at exact half-cent values,
which no claim exercises). -/
def round2 (x : ℚ) : ℚ := (round (x * 100) : ℤ) / 100

/-- The `ip_failed_auth` population filter of
`PatternDetector.detect_credential_stuffing`: status 401 or 403. -/
def pdFailed (logs : List PDLog) : List PDLog :=
  logs.filter (fun l => l.status == 401 || l.status == 403)

/-- One IP group of `detect_credential_stuffing`: at least five failures
whose full first-to-last span is at most 60 seconds. -/
def credGroup (failed : List PDLog) (ip : String) : Option PDEvent :=
  let failures := sortPDByTime (failed.filter (fun l => l.ip == ip))
  if 5 ≤ failures.length then
    match failures.head?, failures.getLast? with
    | some f, some lst =>
      if lst.timestamp - f.timestamp ≤ 60 then
        some { timestamp := lst.timestamp, event_type := "credential_stuffing",
               severity := "high", source_ip := ip, user_agent := f.user_agent,
               resource := f.object,
               details :=
                 [("failed_attempts", DVal.n failures.length),
                  ("time_span", DVal.n (lst.timestamp - f.timestamp)),
                  ("attack_rate",
                   DVal.q ((failures.length : ℚ) /
                     max ((lst.timestamp - f.timestamp : ℤ) : ℚ) 1))],
               region := "unknown" }
      else none
    | _, _ => none
  else none

/-- `PatternDetector.detect_credential_stuffing`: per IP with at least five
status-401/403 entries whose full first-to-last span is at most 60 seconds,
one high-severity event. -/
def detect_credential_stuffing (logs : List PDLog) : List PDEvent :=
  (keysOf ((pdFailed logs).map (fun l => l.ip))).filterMap
    (credGroup (pdFailed logs))

/-- The `ip_data_transfer` population filter of
`PatternDetector.detect_data_exfiltration`: method GET and status 200. -/
def pdDownloads (logs : List PDLog) : List PDLog :=
  logs.filter (fun l => l.method == "GET" && l.status == 200)

/-- One IP group of `detect_data_exfiltration`. -/
def exfilGroup (dls : List PDLog) (ip : String) : Option PDEvent :=
  let files := dls.filter (fun l => l.ip == ip)
  let bytes : ℤ := files.length * (1024 * 1024)
  let size_mb : ℚ := (bytes : ℚ) / (1024 * 1024)
  if (100 : ℚ) ≤ size_mb then
    let ts := files.map (fun l => l.timestamp)
    some { timestamp := maxTs ts, event_type := "data_exfiltration",
           severity := "critical", source_ip := ip, user_agent := "",
           resource := toString files.length ++ " files",
           details :=
             [("total_size_mb", DVal.q (round2 size_mb)),
              ("file_count", DVal.n files.length),
              ("duration_seconds", DVal.n (maxTs ts - minTs ts)),
              ("transfer_rate_mbps",
               DVal.q (round2 (size_mb / max ((maxTs ts - minTs ts : ℤ) : ℚ) 1)))],
           region := "unknown" }
  else none

/-- `PatternDetector.detect_data_exfiltration`: per IP, every successful GET
(method GET, status 200) is counted as a fixed `1024 * 1024`-byte estimate
(`estimated_size = 1024 * 1024`; the entry's own byte count is never read);
one critical event when the estimated total reaches 100 MB. -/
def detect_data_exfiltration (logs : List PDLog) : List PDEvent :=
  (keysOf ((pdDownloads logs).map (fun l => l.ip))).filterMap
    (exfilGroup (pdDownloads logs))

/-- One IP group of `detect_port_scanning`: at least 20 distinct resources
and a full first-to-last span of at most 120 seconds. -/
def portGroup (logs : List PDLog) (ip : String) : Option PDEvent :=
  let accesses := sortPDByTime (logs.filter (fun l => l.ip == ip))
  let unique_resources := keysOf (accesses.map (fun l => l.object))
  if 20 ≤ unique_resources.length then
    match accesses.head?, accesses.getLast? with
    | some f, some lst =>
      if lst.timestamp - f.timestamp ≤ 120 then
        some { timestamp := lst.timestamp, event_type := "port_scanning",
               severity := "medium", source_ip := ip, user_agent := "",
               resource := toString unique_resources.length ++ " resources",
               details :=
                 [("unique_resources", DVal.n unique_resources.length),
                  ("total_requests", DVal.n accesses.length),
                  ("time_span", DVal.n (lst.timestamp - f.timestamp)),
                  ("scan_rate",
                   DVal.q ((accesses.length : ℚ) /
                     max ((lst.timestamp - f.timestamp : ℤ) : ℚ) 1))],
               region := "unknown" }
      else none
    | _, _ => none
  else none

/-- `PatternDetector.detect_port_scanning`: per IP, at least 20 distinct
resources and a full first-to-last span of at most 120 seconds give one
medium event. -/
def detect_port_scanning (logs : List PDLog) : List PDEvent :=
  (keysOf (logs.map (fun l => l.ip))).filterMap (portGroup logs)

/-- Consecutive inter-arrival intervals of a timestamp list. -/
def mkIntervals : List Int → List Int
  | a :: b :: rest => (b - a) :: mkIntervals (b :: rest)
  | _ => []

/-- One IP group of `PatternDetector.detect_time_based_pattern`.  The Python
code evaluates `variance / avg_interval < 0.1` with no guard, so a group of
at least five entries whose intervals are all zero raises
`ZeroDivisionError`; that division is the `Except.error` case. -/
def tbpGroup (logs : List PDLog) (ip : String) :
    Except String (Option PDEvent) :=
  let timestamps :=
    sortInts ((logs.filter (fun l => l.ip == ip)).map (fun l => l.timestamp))
  if timestamps.length < 5 then Except.ok none
  else
    let intervals := mkIntervals timestamps
    if intervals.isEmpty then Except.ok none
    else
      let avg : ℚ := ((intervals.map (fun i => (i : ℚ))).sum) / intervals.length
      let variance : ℚ :=
        ((intervals.map (fun i => |(i : ℚ) - avg|)).sum) / intervals.length
      if avg = 0 then Except.error "ZeroDivisionError: float division by zero"
      else if variance / avg < 1 / 10 then
        Except.ok (some
          { timestamp := maxTs timestamps, event_type := "time_based_pattern",
            severity := "medium", source_ip := ip, user_agent := "",
            resource := "",
            details :=
              [("average_interval_seconds", DVal.q (round2 avg)),
               ("interval_variance", DVal.q (round2 variance)),
               ("request_count", DVal.n timestamps.length),
               ("pattern_type", DVal.s "automated_scheduled")],
            region := "unknown" })
      else Except.ok none

/-- The group loop of `detect_time_based_pattern`: events accumulate in key
order; a `ZeroDivisionError` in any group aborts the call. -/
def tbpKeys (logs : List PDLog) : List String → Except String (List PDEvent)
  | [] => Except.ok []
  | ip :: rest =>
    match tbpGroup logs ip with
    | Except.error e => Except.error e
    | Except.ok none => tbpKeys logs rest
    | Except.ok (some ev) =>
      match tbpKeys logs rest with
      | Except.error e => Except.error e
      | Except.ok evs => Except.ok (ev :: evs)

/-- `PatternDetector.detect_time_based_pattern` (beaconing). -/
def detect_time_based_pattern (logs : List PDLog) :
    Except String (List PDEvent) :=
  tbpKeys logs (keysOf (logs.map (fun l => l.ip)))

/-- `PatternDetector.detect_impossible_travel`: a stub that ignores its
input and returns the empty list. -/
def detect_impossible_travel : List PDLog → List PDEvent := fun _ => []

/-! ### Alert dispatch (`src/main.py`, `analyze_logs`) -/

/-- The two notification channels constructed by `analyze_logs`
(`EmailAlertSystem`, `SlackAlertSystem`). -/
inductive Channel where
  | email
  | slack
deriving DecidableEq, Repr

/-- `[e for e in all_events if e.severity in ['critical', 'high']]`. -/
def immediate_alerts (events : List CWEvent) : List CWEvent :=
  events.filter (fun e => e.severity == "critical" || e.severity == "high")

/-- The alert-sending tail of `analyze_logs`: per immediate event one
`send_alert` on each channel (email first, then slack), and one
`send_batch_alert` per channel iff `len(all_events) > 1`.  Returns the
single-event sends and the channels that received a batch summary. -/
def dispatch_alerts (events : List CWEvent) :
    List (Channel × CWEvent) × List Channel :=
  ((immediate_alerts events).flatMap
     (fun e => [(Channel.email, e), (Channel.slack, e)]),
   if 1 < events.length then [Channel.email, Channel.slack] else [])

/-! ### Statement vocabulary -/

/-- Window `i` of a timestamp list qualifies for the rapid-access scan:
`k` consecutive entries starting at index `i` exist and span at most `W`
seconds. -/
def winQualifies (k : Nat) (W : Int) (ts : List Int) (i : Nat) : Prop :=
  ∃ s e, ts.get? i = some s ∧ ts.get? (i + (k - 1)) = some e ∧ e - s ≤ W

/-- Forget an event's detection timestamp (normalise it to 0), leaving every
other field intact. -/
def eraseTs (e : CWEvent) : CWEvent := { e with timestamp := 0 }

/-! ### Concrete sample inputs for witnesses and counterexamples -/

/-- A `REST.GET.OBJECT` entry from IP "a" at time `t` with the given HTTP
status. -/
def sampleGet (t : Int) (st : String) : CWLog :=
  { timestamp := t, bucket_name := "b", object_name := "o", remote_ip := "a",
    user_agent := "ua", operation := "REST.GET.OBJECT", http_status := st }

/-- Nine successful GETs from one IP. -/
def nineGets : List CWLog := (List.range 9).map (fun n => sampleGet n "200")

/-- Ten successful GETs from one IP. -/
def tenGets : List CWLog := (List.range 10).map (fun n => sampleGet n "200")

/-- Nine successful GETs plus one failed (403) GET, same IP. -/
def nineGetsPlusFailed : List CWLog := nineGets ++ [sampleGet 9 "403"]

/-- A bulk-download event as it would be built at detection instant `t`. -/
def sampleEvent (t : Int) : CWEvent :=
  { event_type := "bulk_download", severity := "high", timestamp := t,
    ip_address := "a", resource := "b", details := [], region := "r" }

/-- Five entries of one IP sharing a single timestamp (the zero-interval
batch for the beaconing detector). -/
def fiveSameInstant : List PDLog :=
  [{ timestamp := 7, ip := "a", object := "o1", user_agent := "u",
     method := "GET", status := 200, bytesEstimate := none },
   { timestamp := 7, ip := "a", object := "o2", user_agent := "u",
     method := "GET", status := 200, bytesEstimate := none },
   { timestamp := 7, ip := "a", object := "o3", user_agent := "u",
     method := "GET", status := 200, bytesEstimate := none },
   { timestamp := 7, ip := "a", object := "o4", user_agent := "u",
     method := "GET", status := 200, bytesEstimate := none },
   { timestamp := 7, ip := "a", object := "o5", user_agent := "u",
     method := "GET", status := 200, bytesEstimate := none }]

/-- One curl-user-agent entry (matches the suspicious-user-agent keyword
set). -/
def curlLog : CWLog :=
  { timestamp := 0, bucket_name := "b", object_name := "o", remote_ip := "a",
    user_agent := "curl/7.68", operation := "GET", http_status := "200" }

/-- A single successful GET whose `bytesEstimate` is 200 MB. -/
def bigGetLogs : List PDLog :=
  [{ timestamp := 0, ip := "e", object := "o", user_agent := "u",
     method := "GET", status := 200, bytesEstimate := some 209715200 }]

/-- A critical severity event for the dispatcher witness. -/
def criticalEvent : CWEvent :=
  { event_type := "data_exfiltration", severity := "critical", timestamp := 3,
    ip_address := "a", resource := "r1", details := [], region := "r" }

/-- A medium severity event for the dispatcher witness. -/
def mediumEvent : CWEvent :=
  { event_type := "rapid_access", severity := "medium", timestamp := 4,
    ip_address := "a", resource := "r2", details := [], region := "r" }

/-! ### Lemmas about the grouping machinery -/

theorem mem_keysOf {l : List String} {a : String} : a ∈ keysOf l ↔ a ∈ l := by
  induction l with
  | nil => simp [keysOf]
  | cons x xs ih =>
    simp only [keysOf, List.mem_cons, List.mem_filter]
    constructor
    · rintro (rfl | ⟨h, _⟩)
      · exact Or.inl rfl
      · exact Or.inr (ih.mp h)
    · rintro (rfl | h)
      · exact Or.inl rfl
      · by_cases hax : a = x
        · exact Or.inl hax
        · exact Or.inr ⟨ih.mpr h, by simpa using hax⟩

theorem nodup_keysOf (l : List String) : (keysOf l).Nodup := by
  induction l with
  | nil => simp [keysOf]
  | cons x xs ih =>
    simp only [keysOf]
    refine List.Nodup.cons ?_ (ih.filter _)
    intro hx
    have := (List.mem_filter.mp hx).2
    simp at this

/-- Grouped event extraction: filtering the events produced by one event per
qualifying group key down to one IP yields exactly that IP's group output
(and nothing if the IP is not a key). -/
theorem filter_filterMap_keys {β : Type} (ipOf : β → String)
    (f : String → Option β) (keys : List String) (hnd : keys.Nodup)
    (hf : ∀ k e, f k = some e → ipOf e = k) (i : String) :
    ((keys.filterMap f).filter (fun e => ipOf e == i)) =
      if i ∈ keys then (f i).toList else [] := by
  induction keys with
  | nil => simp
  | cons k ks ih =>
    have hndtail : ks.Nodup := hnd.of_cons
    have hknotin : k ∉ ks := by
      intro hmem; exact (List.nodup_cons.mp hnd).1 hmem
    simp only [List.filterMap_cons]
    cases hfk : f k with
    | none =>
      rw [ih hndtail]
      by_cases hik : i = k
      · subst hik
        simp [hfk, hknotin]
      · simp only [List.mem_cons]
        by_cases hiks : i ∈ ks
        · simp [hiks, hik]
        · simp [hiks, hik]
    | some e =>
      have he : ipOf e = k := hf k e hfk
      by_cases hik : i = k
      · subst hik
        rw [List.filter_cons_of_pos (by rw [he]; exact beq_self_eq_true _),
          ih hndtail]
        simp [hfk, hknotin]
      · rw [List.filter_cons_of_neg
          (by rw [he]; simp only [beq_iff_eq]; exact fun h => hik h.symm),
          ih hndtail]
        simp only [List.mem_cons]
        by_cases hiks : i ∈ ks
        · simp [hiks, hik]
        · simp [hiks, hik]

/-- Any per-key grouped detector yields at most one event per IP. -/
theorem length_filter_filterMap_le_one {β : Type} (ipOf : β → String)
    (f : String → Option β) (keys : List String) (hnd : keys.Nodup)
    (hf : ∀ k e, f k = some e → ipOf e = k) (i : String) :
    ((keys.filterMap f).filter (fun e => ipOf e == i)).length ≤ 1 := by
  rw [filter_filterMap_keys ipOf f keys hnd hf i]
  split
  · cases f i <;> simp
  · simp

/-- `firstWindow` really is the chronologically first qualifying window:
whatever it returns is a window of the list, and no earlier window
qualifies. -/
theorem firstWindow_isFirst (k : Nat) (W : Int) :
    ∀ (ts : List Int) (s e : Int), firstWindow k W ts = some (s, e) →
      ∃ i, ts.get? i = some s ∧ ts.get? (i + (k - 1)) = some e ∧ e - s ≤ W ∧
        ∀ j, j < i → ¬ winQualifies k W ts j := by
  intro ts
  induction ts with
  | nil => intro s e h; simp [firstWindow] at h
  | cons t ts ih =>
    intro s e h
    rw [firstWindow] at h
    cases hget : (t :: ts).get? (k - 1) with
    | none => rw [hget] at h; simp at h
    | some tEnd =>
      rw [hget] at h
      simp only at h
      by_cases hspan : tEnd - t ≤ W
      · rw [if_pos hspan] at h
        have hs : t = s := congrArg Prod.fst (Option.some.inj h)
        have he : tEnd = e := congrArg Prod.snd (Option.some.inj h)
        subst hs; subst he
        exact ⟨0, by simp, by simpa using hget, hspan, by omega⟩
      · rw [if_neg hspan] at h
        obtain ⟨i, h1, h2, h3, h4⟩ := ih s e h
        refine ⟨i + 1, by simpa using h1, ?_, h3, ?_⟩
        · have harith : i + 1 + (k - 1) = (i + (k - 1)) + 1 := by omega
          rw [harith]
          simpa using h2
        · intro j hj
          cases j with
          | zero =>
            rintro ⟨s0, e0, hs0, he0, hsp0⟩
            have hs0' : s0 = t := by
              simp only [List.get?_cons_zero] at hs0
              exact (Option.some.inj hs0).symm
            have he0' : e0 = tEnd := by
              rw [Nat.zero_add] at he0
              rw [hget] at he0
              exact (Option.some.inj he0).symm
            subst hs0'; subst he0'
            exact hspan hsp0
          | succ j' =>
            rintro ⟨s0, e0, hs0, he0, hsp0⟩
            refine h4 j' (by omega) ⟨s0, e0, by simpa using hs0, ?_, hsp0⟩
            have harith : j' + 1 + (k - 1) = (j' + (k - 1)) + 1 := by omega
            rw [harith] at he0
            simpa using he0

/-! ### Claim C1 -/

/-- **C1**, counterexample.  The persisted identity is
`event_type + "_" + timestamp + "_" + ip_address` — a function of the
event's wall-clock detection instant, not of the analysis window's bucket:
two events with equal type, IP and (hour-granularity) window bucket but
detection instants one second apart get different identities, and storing
both leaves two records, not one. -/
theorem C1_identity_counterexample :
    (sampleEvent 0).event_type = (sampleEvent 1).event_type ∧
    (sampleEvent 0).ip_address = (sampleEvent 1).ip_address ∧
    spec_windowBucket 3600 (sampleEvent 0).timestamp
      = spec_windowBucket 3600 (sampleEvent 1).timestamp ∧
    event_id (sampleEvent 0) ≠ event_id (sampleEvent 1) ∧
    (store_event_in_dynamodb (store_event_in_dynamodb [] (sampleEvent 0))
        (sampleEvent 1)).length = 2 := by
  decide

/-- **C1**, amended.  The identity is deterministic in (event type,
detection timestamp, source IP); `put_item` is an unconditional
overwrite-by-key, so two events with the same identity leave exactly one
record (last write wins) — but the adapter reports no stored/duplicate
outcome and the identity ignores the window bucket. -/
theorem C1_identity_amended (e1 e2 : CWEvent)
    (hty : e1.event_type = e2.event_type) (hts : e1.timestamp = e2.timestamp)
    (hip : e1.ip_address = e2.ip_address) :
    event_id e1 = event_id e2 ∧
    store_event_in_dynamodb (store_event_in_dynamodb [] e1) e2
      = [(event_id e2, e2)] := by
  have hid : event_id e1 = event_id e2 := by
    unfold event_id
    rw [hty, hts, hip]
  refine ⟨hid, ?_⟩
  unfold store_event_in_dynamodb put_item
  simp [hid]

/-- **C1**, witness for the amended statement: storing the same
bulk-download event twice (identical type, instant and IP; the second copy
downgraded to medium severity to show last-write-wins) leaves exactly the
one overwritten record. -/
theorem C1_identity_witness :
    event_id (sampleEvent 5)
      = event_id { sampleEvent 5 with severity := "medium" } ∧
    store_event_in_dynamodb (store_event_in_dynamodb [] (sampleEvent 5))
        { sampleEvent 5 with severity := "medium" }
      = [(event_id { sampleEvent 5 with severity := "medium" },
          { sampleEvent 5 with severity := "medium" })] :=
  C1_identity_amended (sampleEvent 5) { sampleEvent 5 with severity := "medium" }
    rfl rfl rfl

/-! ### Claim C2 -/

/-- **C2**, counterexample.  `detect_bulk_downloads` counts
`REST.GET.OBJECT` entries without consulting the HTTP status: an IP with
exactly nine successful GETs (one short of the threshold) plus one failed
GET still gets an event, though the claim promises none at nine successful
GETs. -/
theorem C2_bulk_counterexample :
    ((nineGetsPlusFailed.filter spec_successfulGet).filter
        (fun l => l.remote_ip == "a")).length = 9 ∧
    ((detect_bulk_downloads 10 0 "r" nineGetsPlusFailed).filter
        (fun e => e.ip_address == "a")).length = 1 := by
  decide

/-- **C2**, amended: with "successful GET entries" replaced by
"`REST.GET.OBJECT` entries of any HTTP status", the boundary holds: exactly
`thr - 1` such entries for an IP give no event and exactly `thr` give
exactly one event for that IP, of severity high. -/
theorem C2_bulk_amended (thr : Nat) (now : Int) (rgn ip : String)
    (logs : List CWLog) (hthr : 1 ≤ thr) :
    ((((cwGets logs).filter (fun l => l.remote_ip == ip)).length = thr - 1 →
      (detect_bulk_downloads thr now rgn logs).filter
        (fun e => e.ip_address == ip) = []) ∧
     (((cwGets logs).filter (fun l => l.remote_ip == ip)).length = thr →
      ∃ ev, (detect_bulk_downloads thr now rgn logs).filter
          (fun e => e.ip_address == ip) = [ev] ∧
        ev.severity = "high" ∧ ev.event_type = "bulk_download")) := by
  have hf : ∀ key ev, bulkGroup thr now rgn (cwGets logs) key = some ev →
      ev.ip_address = key := by
    intro key ev h
    simp only [bulkGroup] at h
    split at h
    · cases h
      rfl
    · exact absurd h (by simp)
  have key := filter_filterMap_keys CWEvent.ip_address
    (bulkGroup thr now rgn (cwGets logs))
    (keysOf ((cwGets logs).map (fun l => l.remote_ip)))
    (nodup_keysOf _) hf ip
  constructor
  · intro hcount
    have hnone : bulkGroup thr now rgn (cwGets logs) ip = none := by
      have hcnt : ¬ thr ≤ ((cwGets logs).filter (fun l => l.remote_ip == ip)).length := by
        rw [hcount]; omega
      simp only [bulkGroup]
      rw [if_neg hcnt]
    rw [detect_bulk_downloads, key, hnone]
    split <;> rfl
  · intro hcount
    have hcond : thr ≤ ((cwGets logs).filter (fun l => l.remote_ip == ip)).length := by
      rw [hcount]
    have hmem : ip ∈ keysOf ((cwGets logs).map (fun l => l.remote_ip)) := by
      rw [mem_keysOf]
      have hpos : 0 < ((cwGets logs).filter (fun l => l.remote_ip == ip)).length := by
        omega
      obtain ⟨l, hl⟩ := List.exists_mem_of_length_pos hpos
      have hl2 := List.mem_filter.mp hl
      exact List.mem_map.mpr ⟨l, hl2.1, by simpa using hl2.2⟩
    rw [detect_bulk_downloads, key, if_pos hmem]
    simp only [bulkGroup]
    rw [if_pos hcond]
    exact ⟨_, rfl, rfl, rfl⟩

/-- **C2**, witness for the amended statement at the default threshold 10:
nine GET entries give no event, ten give exactly one high-severity
bulk-download event. -/
theorem C2_bulk_witness :
    (1 ≤ 10 ∧
      (detect_bulk_downloads 10 0 "r" nineGets).filter
        (fun e => e.ip_address == "a") = []) ∧
    ∃ ev, (detect_bulk_downloads 10 0 "r" tenGets).filter
        (fun e => e.ip_address == "a") = [ev] ∧
      ev.severity = "high" ∧ ev.event_type = "bulk_download" :=
  ⟨⟨by omega,
    (C2_bulk_amended 10 0 "r" "a" nineGets (by omega)).1 (by decide)⟩,
   (C2_bulk_amended 10 0 "r" "a" tenGets (by omega)).2 (by decide)⟩

/-! ### Claim C3 -/

/-- **C3** (confirmed).  The window detectors RapidAccess, PortScanning and
CredentialStuffing each emit at most one event per source IP per pass; the
rapid-access event reports exactly the chronologically first qualifying
window of that IP's sorted timestamps, and the other two (which evaluate the
single whole-group window of the sorted group) emit only events whose
group-window condition holds. -/
theorem C3_one_event_per_ip (logs_cw : List CWLog) (logs_pd : List PDLog)
    (k : Nat) (W now : Int) (rgn ip : String) :
    ((detect_rapid_access k W now rgn logs_cw).filter
        (fun e => e.ip_address == ip)).length ≤ 1 ∧
    ((detect_port_scanning logs_pd).filter
        (fun e => e.source_ip == ip)).length ≤ 1 ∧
    ((detect_credential_stuffing logs_pd).filter
        (fun e => e.source_ip == ip)).length ≤ 1 ∧
    (∀ ev ∈ detect_rapid_access k W now rgn logs_cw, ev.ip_address = ip →
      ∃ i s e, (sortedTimes logs_cw ip).get? i = some s ∧
        (sortedTimes logs_cw ip).get? (i + (k - 1)) = some e ∧ e - s ≤ W ∧
        (∀ j, j < i → ¬ winQualifies k W (sortedTimes logs_cw ip) j) ∧
        ("first_access", DVal.n s) ∈ ev.details ∧
        ("last_access", DVal.n e) ∈ ev.details) ∧
    (∀ ev ∈ detect_port_scanning logs_pd, ev.source_ip = ip →
      20 ≤ (keysOf ((sortPDByTime (logs_pd.filter (fun l => l.ip == ip))).map
          (fun l => l.object))).length ∧
      ∃ f lst,
        (sortPDByTime (logs_pd.filter (fun l => l.ip == ip))).head? = some f ∧
        (sortPDByTime (logs_pd.filter (fun l => l.ip == ip))).getLast? = some lst ∧
        lst.timestamp - f.timestamp ≤ 120) ∧
    (∀ ev ∈ detect_credential_stuffing logs_pd, ev.source_ip = ip →
      5 ≤ (sortPDByTime ((pdFailed logs_pd).filter (fun l => l.ip == ip))).length ∧
      ∃ f lst,
        (sortPDByTime ((pdFailed logs_pd).filter (fun l => l.ip == ip))).head?
          = some f ∧
        (sortPDByTime ((pdFailed logs_pd).filter (fun l => l.ip == ip))).getLast?
          = some lst ∧
        lst.timestamp - f.timestamp ≤ 60) := by
  have hf_r : ∀ key ev, rapidGroup k W now rgn logs_cw key = some ev →
      ev.ip_address = key := by
    intro key ev h
    simp only [rapidGroup] at h
    obtain ⟨w, hw, hg⟩ := Option.map_eq_some'.mp h
    rw [← hg]
  have hf_p : ∀ key ev, portGroup logs_pd key = some ev →
      ev.source_ip = key := by
    intro key ev h
    simp only [portGroup] at h
    split at h
    · split at h
      · split at h
        · cases h; rfl
        · exact absurd h (by simp)
      · exact absurd h (by simp)
    · exact absurd h (by simp)
  have hf_c : ∀ key ev, credGroup (pdFailed logs_pd) key = some ev →
      ev.source_ip = key := by
    intro key ev h
    simp only [credGroup] at h
    split at h
    · split at h
      · split at h
        · cases h; rfl
        · exact absurd h (by simp)
      · exact absurd h (by simp)
    · exact absurd h (by simp)
  refine ⟨?_, ?_, ?_, ?_, ?_, ?_⟩
  · rw [detect_rapid_access]
    exact length_filter_filterMap_le_one CWEvent.ip_address _ _
      (nodup_keysOf _) hf_r ip
  · rw [detect_port_scanning]
    exact length_filter_filterMap_le_one PDEvent.source_ip _ _
      (nodup_keysOf _) hf_p ip
  · rw [detect_credential_stuffing]
    exact length_filter_filterMap_le_one PDEvent.source_ip _ _
      (nodup_keysOf _) hf_c ip
  · intro ev hev hip
    obtain ⟨key, hkey, hsome⟩ := List.mem_filterMap.mp hev
    have hkeq : key = ip := by rw [← hf_r key ev hsome, hip]
    subst hkeq
    simp only [rapidGroup] at hsome
    obtain ⟨w, hw, hg⟩ := Option.map_eq_some'.mp hsome
    obtain ⟨i, h1, h2, h3, h4⟩ :=
      firstWindow_isFirst k W (sortedTimes logs_cw key) w.1 w.2
        (by rw [← hw])
    refine ⟨i, w.1, w.2, h1, h2, h3, h4, ?_, ?_⟩
    · rw [← hg]; simp
    · rw [← hg]; simp
  · intro ev hev hip
    obtain ⟨key, hkey, hsome⟩ := List.mem_filterMap.mp hev
    have hkeq : key = ip := by rw [← hf_p key ev hsome, hip]
    subst hkeq
    simp only [portGroup] at hsome
    by_cases h20 : 20 ≤ (keysOf ((sortPDByTime
        (logs_pd.filter (fun l => l.ip == key))).map (fun l => l.object))).length
    · rw [if_pos h20] at hsome
      cases hh : (sortPDByTime (logs_pd.filter (fun l => l.ip == key))).head? with
      | none =>
        rw [hh] at hsome
        exact absurd hsome (by
          cases (sortPDByTime (logs_pd.filter (fun l => l.ip == key))).getLast? <;> simp)
      | some f =>
        cases hl : (sortPDByTime (logs_pd.filter (fun l => l.ip == key))).getLast? with
        | none => rw [hh, hl] at hsome; exact absurd hsome (by simp)
        | some lst =>
          rw [hh, hl] at hsome
          by_cases hsp : lst.timestamp - f.timestamp ≤ 120
          · exact ⟨h20, f, lst, rfl, rfl, hsp⟩
          · exact absurd hsome (by simp [hsp])
    · rw [if_neg h20] at hsome
      exact absurd hsome (by simp)
  · intro ev hev hip
    obtain ⟨key, hkey, hsome⟩ := List.mem_filterMap.mp hev
    have hkeq : key = ip := by rw [← hf_c key ev hsome, hip]
    subst hkeq
    simp only [credGroup] at hsome
    by_cases h5 : 5 ≤ (sortPDByTime
        ((pdFailed logs_pd).filter (fun l => l.ip == key))).length
    · rw [if_pos h5] at hsome
      cases hh : (sortPDByTime ((pdFailed logs_pd).filter (fun l => l.ip == key))).head? with
      | none =>
        rw [hh] at hsome
        exact absurd hsome (by
          cases (sortPDByTime ((pdFailed logs_pd).filter (fun l => l.ip == key))).getLast? <;> simp)
      | some f =>
        cases hl : (sortPDByTime ((pdFailed logs_pd).filter (fun l => l.ip == key))).getLast? with
        | none => rw [hh, hl] at hsome; exact absurd hsome (by simp)
        | some lst =>
          rw [hh, hl] at hsome
          by_cases hsp : lst.timestamp - f.timestamp ≤ 60
          · exact ⟨h5, f, lst, rfl, rfl, hsp⟩
          · exact absurd hsome (by simp [hsp])
    · rw [if_neg h5] at hsome
      exact absurd hsome (by simp)

/-! ### Claim C4 -/

/-- **C4** fails on the code: `detect_time_based_pattern` evaluates
`variance / avg_interval` with no zero guard (unlike the `max(span, 1)`
guards of the rate computations), so a batch in which one IP has five
entries all sharing a timestamp makes `avg_interval == 0.0` and the
detector raises `ZeroDivisionError` instead of not firing. -/
theorem C4_zero_division_bug :
    (∀ l ∈ fiveSameInstant, l.timestamp = 7 ∧ l.ip = "a") ∧
    detect_time_based_pattern fiveSameInstant
      = Except.error "ZeroDivisionError: float division by zero" := by
  constructor
  · decide
  · norm_num [detect_time_based_pattern, tbpKeys, tbpGroup, fiveSameInstant,
      keysOf, sortInts, List.insertionSort, List.orderedInsert, mkIntervals]

/-! ### Claim C5 -/

/-- **C5** (confirmed).  On the empty batch every detector returns the empty
event sequence (the fallible beaconing detector returns `ok []`), and the
all-detector pass returns an empty overall result. -/
theorem C5_empty_batch (thr k : Nat) (W now : Int) (rgn : String) :
    detect_bulk_downloads thr now rgn [] = [] ∧
    detect_rapid_access k W now rgn [] = [] ∧
    detect_abnormal_hours_access rgn [] = [] ∧
    detect_geolocation_anomaly now rgn [] = [] ∧
    detect_credential_stuffing [] = [] ∧
    detect_data_exfiltration [] = [] ∧
    detect_port_scanning [] = [] ∧
    detect_time_based_pattern [] = Except.ok [] ∧
    detect_impossible_travel [] = [] ∧
    analyze_logs_events now rgn [] = [] :=
  ⟨rfl, rfl, rfl, rfl, rfl, rfl, rfl, rfl, rfl, rfl⟩

/-! ### Claim C6 -/

/-- **C6** fails on the code: event timestamps come from
`datetime.now(pytz.UTC)` at detection time, so the identical one-entry batch
analysed at two different instants yields different event sets. -/
theorem C6_determinism_counterexample :
    analyze_logs_events 0 "r" [curlLog] ≠ analyze_logs_events 1 "r" [curlLog] := by
  decide

/-- **C6**, amended: detection is deterministic given the batch *and* the
detection-time clock; erasing the event timestamp field, the output of the
full detector pass is a function of the batch alone — only the wall-clock
timestamp field varies between runs. -/
theorem C6_determinism_amended (logs : List CWLog) (n1 n2 : Int) (rgn : String) :
    (analyze_logs_events n1 rgn logs).map eraseTs
      = (analyze_logs_events n2 rgn logs).map eraseTs := by
  unfold analyze_logs_events
  by_cases hempty : logs.isEmpty = true
  · rw [if_pos hempty, if_pos hempty]
  · rw [if_neg hempty, if_neg hempty]
    rw [List.map_append, List.map_append, List.map_append, List.map_append,
      List.map_append, List.map_append]
    congr 1
    · congr 1
      congr 1
      · unfold detect_bulk_downloads
        rw [List.map_filterMap, List.map_filterMap]
        congr 1
        funext key
        simp only [bulkGroup]
        by_cases hc : 10 ≤ ((cwGets logs).filter (fun l => l.remote_ip == key)).length
        · rw [if_pos hc, if_pos hc]
          simp [eraseTs]
        · rw [if_neg hc, if_neg hc]
      · unfold detect_rapid_access
        rw [List.map_filterMap, List.map_filterMap]
        congr 1
        funext key
        simp only [rapidGroup]
        rw [Option.map_map, Option.map_map]
        congr 1
    · unfold detect_geolocation_anomaly
      rw [List.map_filterMap, List.map_filterMap]
      congr 1
      funext l
      by_cases hs : suspiciousUA l.user_agent
      · rw [if_pos hs, if_pos hs]
        simp [eraseTs]
      · rw [if_neg hs, if_neg hs]

/-! ### Claim C7 -/

/-- **C7** (confirmed).  The dispatcher sends exactly one immediate
single-event alert per channel and no batch summary for a lone critical
event, and no immediate alert but exactly one batch summary per channel for
two medium events. -/
theorem C7_dispatch (e e1 e2 : CWEvent) (hc : e.severity = "critical")
    (h1 : e1.severity = "medium") (h2 : e2.severity = "medium") :
    dispatch_alerts [e] = ([(Channel.email, e), (Channel.slack, e)], []) ∧
    dispatch_alerts [e1, e2] = ([], [Channel.email, Channel.slack]) := by
  unfold dispatch_alerts immediate_alerts
  constructor
  · simp [hc]
  · simp [h1, h2]

/-- **C7**, witness: a concrete critical event and two concrete medium
events. -/
theorem C7_dispatch_witness :
    dispatch_alerts [criticalEvent]
      = ([(Channel.email, criticalEvent), (Channel.slack, criticalEvent)], []) ∧
    dispatch_alerts [mediumEvent, mediumEvent]
      = ([], [Channel.email, Channel.slack]) :=
  C7_dispatch criticalEvent mediumEvent mediumEvent rfl rfl rfl

/-! ### Claim C8 -/

/-- The exfiltration threshold test the code actually performs, reduced to a
count: `count * 1 MB / 1 MB ≥ 100 MB / 1 MB` iff the successful-GET count
reaches 100. -/
theorem exfilCond (n : ℕ) :
    ((100 : ℚ) ≤ (((n : ℤ) * (1024 * 1024) : ℤ) : ℚ) / (1024 * 1024)) ↔
      100 ≤ n := by
  have hcast : (((n : ℤ) * (1024 * 1024) : ℤ) : ℚ) / (1024 * 1024) = (n : ℚ) := by
    push_cast
    field_simp
    left
    norm_num
  rw [hcast]
  exact_mod_cast Iff.rfl

/-- **C8** fails on the code: the detector ignores the entries' byte counts
(`estimated_size = 1024 * 1024` for every successful GET), so a single
successful GET whose `bytesEstimate` is 200 MB satisfies the spec condition
yet produces no event. -/
theorem C8_exfil_counterexample :
    spec_dataExfilFires bigGetLogs "e" ∧
    detect_data_exfiltration bigGetLogs = [] := by
  constructor
  · simp only [spec_dataExfilFires]
    decide
  · norm_num [detect_data_exfiltration, bigGetLogs, keysOf, pdDownloads,
      exfilGroup]

/-- **C8**, amended: the detector fires for an IP iff that IP has at least
100 successful GET entries (each counted as a fixed 1 MB estimate;
`bytesEstimate` is ignored), and every emitted event has severity
critical. -/
theorem C8_exfil_amended (logs : List PDLog) (ip : String) :
    ((detect_data_exfiltration logs).filter
        (fun e => e.source_ip == ip)).length
      = (if 100 ≤ ((pdDownloads logs).filter (fun l => l.ip == ip)).length
          then 1 else 0) ∧
    ∀ e ∈ detect_data_exfiltration logs,
      e.severity = "critical" ∧ e.event_type = "data_exfiltration" := by
  have hf : ∀ key ev, exfilGroup (pdDownloads logs) key = some ev →
      ev.source_ip = key := by
    intro key ev h
    simp only [exfilGroup] at h
    split at h
    · cases h; rfl
    · exact absurd h (by simp)
  have key := filter_filterMap_keys PDEvent.source_ip
    (exfilGroup (pdDownloads logs))
    (keysOf ((pdDownloads logs).map (fun l => l.ip)))
    (nodup_keysOf _) hf ip
  constructor
  · rw [detect_data_exfiltration, key]
    by_cases hcount : 100 ≤ ((pdDownloads logs).filter (fun l => l.ip == ip)).length
    · have hmem : ip ∈ keysOf ((pdDownloads logs).map (fun l => l.ip)) := by
        rw [mem_keysOf]
        have hpos : 0 < ((pdDownloads logs).filter (fun l => l.ip == ip)).length := by
          omega
        obtain ⟨l, hl⟩ := List.exists_mem_of_length_pos hpos
        have hl2 := List.mem_filter.mp hl
        exact List.mem_map.mpr ⟨l, hl2.1, by simpa using hl2.2⟩
      rw [if_pos hmem, if_pos hcount]
      simp only [exfilGroup]
      split
      · simp
      · rename_i hq
        exact absurd ((exfilCond _).mpr hcount) hq
    · rw [if_neg hcount]
      have hnone : exfilGroup (pdDownloads logs) ip = none := by
        simp only [exfilGroup]
        split
        · rename_i hq
          exact absurd ((exfilCond _).mp hq) hcount
        · rfl
      rw [hnone]
      split <;> rfl
  · intro e he
    obtain ⟨key2, hk2, hsome⟩ := List.mem_filterMap.mp he
    simp only [exfilGroup] at hsome
    split at hsome
    · cases hsome
      exact ⟨rfl, rfl⟩
    · exact absurd hsome (by simp)

/-! ### Claim C9 -/

/-- **C9** (confirmed).  `detect_impossible_travel` is the constant empty
function: for every batch it returns the empty event list (and, being pure,
has no other effect). -/
theorem C9_impossible_travel_stub (logs : List PDLog) :
    detect_impossible_travel logs = [] := rfl

/-! ### Claim C10 -/

/-- **C10** (confirmed).  The CloudWatch suspicious-user-agent detector
(`detect_geolocation_anomaly`) emits exactly one `suspicious_user_agent`
event per matching entry of an IP — N matching entries give N events — and
its keyword set omits "script" (a pure "script" user agent matches no
keyword). -/
theorem C10_ua_event_per_entry (logs : List CWLog) (now : Int)
    (rgn ip : String) :
    ((detect_geolocation_anomaly now rgn logs).filter
        (fun e => e.ip_address == ip)).length
      = (logs.filter
          (fun l => suspiciousUA l.user_agent && l.remote_ip == ip)).length ∧
    (∀ e ∈ detect_geolocation_anomaly now rgn logs,
      e.event_type = "suspicious_user_agent" ∧ e.severity = "medium") ∧
    suspiciousUA "script/2.0" = false := by
  refine ⟨?_, ?_, by decide⟩
  · unfold detect_geolocation_anomaly
    induction logs with
    | nil => rfl
    | cons l ls ih =>
      by_cases hs : suspiciousUA l.user_agent
      · by_cases hip : l.remote_ip = ip
        · simp [List.filterMap_cons, List.filter_cons, hs, hip, ih]
        · simp [List.filterMap_cons, List.filter_cons, hs, hip, ih]
      · simp [List.filterMap_cons, List.filter_cons, hs, ih]
  · intro e he
    obtain ⟨l, hl, hsome⟩ := List.mem_filterMap.mp he
    split at hsome
    · cases hsome
      exact ⟨rfl, rfl⟩
    · exact absurd hsome (by simp)

/-! ### Concrete instantiations of the universally quantified theorems -/

/-- **C3**, concrete instantiation: on the ten-GET burst the rapid-access
detector emits at most one event for IP "a". -/
theorem C3_one_event_witness :
    ((detect_rapid_access 5 60 0 "r" tenGets).filter
        (fun e => e.ip_address == "a")).length ≤ 1 :=
  (C3_one_event_per_ip tenGets [] 5 60 0 "r" "a").1

/-- **C4**, concrete instantiation: the failing batch itself. -/
theorem C4_zero_division_witness :
    detect_time_based_pattern fiveSameInstant
      = Except.error "ZeroDivisionError: float division by zero" :=
  C4_zero_division_bug.2

/-- **C5**, concrete instantiation at the default thresholds. -/
theorem C5_empty_batch_witness :
    detect_bulk_downloads 10 0 "r" [] = [] ∧ analyze_logs_events 0 "r" [] = [] :=
  ⟨(C5_empty_batch 10 5 60 0 "r").1,
   (C5_empty_batch 10 5 60 0 "r").2.2.2.2.2.2.2.2.2⟩

/-- **C6**, concrete instantiation of the amended statement: modulo the
timestamp field, the curl batch analysed at instants 0 and 1 gives the same
events. -/
theorem C6_determinism_witness :
    (analyze_logs_events 0 "r" [curlLog]).map eraseTs
      = (analyze_logs_events 1 "r" [curlLog]).map eraseTs :=
  C6_determinism_amended [curlLog] 0 1 "r"

/-- **C8**, concrete instantiation of the amended statement on the 200 MB
single-GET batch: one successful GET is below the 100-count threshold, so
the event count is zero. -/
theorem C8_exfil_witness :
    ((detect_data_exfiltration bigGetLogs).filter
        (fun e => e.source_ip == "e")).length
      = (if 100 ≤ ((pdDownloads bigGetLogs).filter
            (fun l => l.ip == "e")).length then 1 else 0) :=
  (C8_exfil_amended bigGetLogs "e").1

/-- **C9**, concrete instantiation. -/
theorem C9_impossible_travel_witness :
    detect_impossible_travel fiveSameInstant = [] :=
  C9_impossible_travel_stub fiveSameInstant

/-- **C10**, concrete instantiation: the one-curl-entry batch yields exactly
one suspicious-user-agent event for its IP. -/
theorem C10_ua_witness :
    ((detect_geolocation_anomaly 0 "r" [curlLog]).filter
        (fun e => e.ip_address == "a")).length
      = ([curlLog].filter
          (fun l => suspiciousUA l.user_agent && l.remote_ip == "a")).length :=
  (C10_ua_event_per_entry [curlLog] 0 "r" "a").1

end HoneyToken
